import Mathlib

/-!
Verification of the policy-gated banking-assistant pipeline
(`src/bank-agent.py`): a shallow embedding of its data model and tool
functions, and theorems settling the specified properties.

The external authorization service (the Permit decision point) is modelled
by explicit parameters: a point check becomes a `Bool` (or a `Bool → Bool`
function of the contextual attribute it is given), and the set-filter
becomes an `Except`-valued result — an error message when the service
fails, or the list of allowed resource ids when it answers.
-/

namespace BankAgent

/-- A document of the mock catalog: `id`, `content`, `type` and
`security_requirement`, exactly the fields of `MOCK_BANK_DOCS`. -/
structure BankDoc where
  id : String
  content : String
  type : String
  security_requirement : String
deriving DecidableEq, Repr

/-- The four-document catalog `MOCK_BANK_DOCS`. -/
def MOCK_BANK_DOCS : List BankDoc :=
  [ { id := "doc_001",
      content := "Bank accounts can be checking or savings. Minimum balance requirements apply.",
      type := "account_info",
      security_requirement := "standard" },
    { id := "doc_002",
      content := "We offer personal, business, and mortgage loans with competitive rates.",
      type := "loan_info",
      security_requirement := "standard" },
    { id := "doc_003",
      content := "Investment options include stocks, bonds, and mutual funds.",
      type := "investment_info",
      security_requirement := "high" },
    { id := "doc_004",
      content := "We use state-of-the-art encryption and multi-factor authentication.",
      type := "security_info",
      security_requirement := "high" } ]

/-- The mock account table `MOCK_BANK_ACCOUNTS`, with balances held in
cents (the Python floats 5000.75 and 1250.30 round-trip exactly through
two-decimal formatting, so an integer number of cents is a faithful
model). -/
def MOCK_BANK_ACCOUNTS : List (String × Nat) :=
  [("samarachi470@gmail.com", 500075), ("test@example.com", 125030)]

/-- Checks that `pre` is a leading segment of `l` (character-wise). -/
def leadsWith : List Char → List Char → Bool
  | [], _ => true
  | _ :: _, [] => false
  | a :: pre, b :: l => a == b && leadsWith pre l

/-- Models the Python substring test `needle in hay` on strings, as lists
of characters. -/
def strContains (hay needle : List Char) : Bool :=
  leadsWith needle hay ||
    match hay with
    | [] => false
    | _ :: t => strContains t needle

/-- ASCII lowercasing of one character, as Python's `str.lower` acts on
the ASCII strings of this program. -/
def lowerChar (c : Char) : Char :=
  if 'A' ≤ c ∧ c ≤ 'Z' then Char.ofNat (c.toNat + 32) else c

/-- The characters of `s.lower()` for the ASCII strings of this program. -/
def lowerStr (s : String) : List Char :=
  s.data.map lowerChar

/-- The topic predicate of `check_bank_documentation` line 135:
`topic.lower() in doc["type"].lower()`. -/
def topicMatches (topic : String) (doc : BankDoc) : Bool :=
  strContains (lowerStr doc.type) (lowerStr topic)

/-- The list comprehension of `check_bank_documentation` lines 132-136:
documents whose id is in the allowed set and whose type matches the
topic. -/
def filteredDocs (allowed_ids : List String) (topic : String) : List BankDoc :=
  MOCK_BANK_DOCS.filter fun doc =>
    allowed_ids.contains doc.id && topicMatches topic doc

/-- The `SecurityError` exception class of `src/bank-agent.py` line 65. -/
inductive SecurityError where
  | mk : String → SecurityError
deriving DecidableEq, Repr

/-- The string returned when `filtered_docs` is empty (line 139). -/
def noDocMsg : String :=
  "No documentation found for this topic or you don't have permission to access it."

/-- Tool 2, `check_bank_documentation`: `filterResult` models the outcome
of `permit_client.filter_objects` — `Except.error e` when that call raises
(object with message `e`), `Except.ok allowed_ids` when it answers with the
allowed documents' ids. A raise is caught by the `except` block and
re-raised as `SecurityError`; otherwise the tool returns the first
filtered document's content, or `noDocMsg` when none survive. -/
def check_bank_documentation (filterResult : Except String (List String))
    (topic : String) : Except SecurityError String :=
  match filterResult with
  | Except.error e => Except.error (SecurityError.mk ("Failed to filter documents: " ++ e))
  | Except.ok allowed_ids =>
    match filteredDocs allowed_ids topic with
    | [] => Except.ok noDocMsg
    | d :: _ => Except.ok d.content

/-- Formats a balance in cents the way `f"{balance:.2f}"` prints the
corresponding nonnegative two-decimal amount. -/
def formatCents (c : Nat) : String :=
  toString (c / 100) ++ "." ++ (if c % 100 < 10 then "0" else "") ++ toString (c % 100)

/-- Tool 3, `check_account_balance`: `has_access` models the decision
point's answer to the point check on kind `account_info`, classification
`standard`. The balance defaults to 0 for a subject with no account
(`MOCK_BANK_ACCOUNTS.get(user_id, 0.0)`). -/
def check_account_balance (has_access : Bool) (user_id : String) : String :=
  if !has_access then
    "ACCESS_DENIED: You do not have permission to view account balance."
  else
    "Your current balance is $" ++ formatCents ((MOCK_BANK_ACCOUNTS.lookup user_id).getD 0)

/-- The arguments of a Permit point-check call, as built by
`verify_user_prompt` lines 48-55: a subject (key plus boolean attributes),
an action string, and a resource (type plus boolean attributes). -/
structure CheckCall where
  subjectKey : String
  subjectAttrs : List (String × Bool)
  action : String
  resourceType : String
  resourceAttrs : List (String × Bool)
deriving DecidableEq, Repr

/-- The exact point-check call `verify_user_prompt` issues for a given
user id: subject `{key: user_id, attributes: {identity_verified: true}}`,
action `"recieve"` (spelled as in the source), resource
`{type: "support_response"}` with no attributes. -/
def verify_user_prompt_call (user_id : String) : CheckCall :=
  { subjectKey := user_id,
    subjectAttrs := [("identity_verified", true)],
    action := "recieve",
    resourceType := "support_response",
    resourceAttrs := [] }

/-- Tool 1, `verify_user_prompt`, after the decision point answered
`has_identity`: the string returned to the agent (lines 57-62). -/
def verify_user_prompt (has_identity : Bool) : String :=
  if !has_identity then
    "IDENTITY_NOT_VERIFIED: Please verify your identity at example.com/verify"
  else
    "IDENTITY_VERIFIED: User is permitted to make queries"

/-- Scans a character list for a decimal digit, the way
`re.search` with a digit-class pattern walks the text left to right. -/
def searchDigitList : List Char → Bool
  | [] => false
  | c :: cs => c.isDigit || searchDigitList cs

/-- Models `bool(re.search(r"\d", response_text))` of `verify_response`
line 182 (ASCII decimal digits; the catalog and all tool strings are
ASCII). -/
def re_search_digit (s : String) : Bool :=
  searchDigitList s.data

/-- The dict `verify_response` returns (lines 194-205). -/
structure VerifyResult where
  approved : Bool
  contains_sensitive_data : Bool
  caution_note : String
deriving DecidableEq, Repr

/-- The caution note attached at lines 200-203. -/
def cautionMsg : String :=
  "CAUTION: This response contains sensitive financial information. Please ensure you're in a private location."

/-- Tool 4, `verify_response`: `decide_caution` models the decision
point's `receive_with_caution` check as a function of the
`contains_account_numbers` attribute the tool passes it. -/
def verify_response (decide_caution : Bool → Bool) (response_text : String) :
    VerifyResult :=
  let contains_numbers := re_search_digit response_text
  let needs_caution := decide_caution contains_numbers
  { approved := true,
    contains_sensitive_data := contains_numbers,
    caution_note := if needs_caution && contains_numbers then cautionMsg else "" }

/-! ## Helper lemmas -/

/-- Scanning a character list finds a digit exactly when one is present. -/
theorem searchDigitList_iff (l : List Char) :
    searchDigitList l = true ↔ ∃ c ∈ l, c.isDigit = true := by
  induction l with
  | nil => simp [searchDigitList]
  | cons c cs ih =>
    simp only [searchDigitList, Bool.or_eq_true, ih, List.mem_cons]
    constructor
    · rintro (h | ⟨a, ha, hd⟩)
      · exact ⟨c, Or.inl rfl, h⟩
      · exact ⟨a, Or.inr ha, hd⟩
    · rintro ⟨a, rfl | ha, hd⟩
      · exact Or.inl hd
      · exact Or.inr ⟨a, ha, hd⟩

/-- Filtering by two independent boolean predicates commutes, and a
single filter by their conjunction equals the two-pass form. -/
theorem filter_two_pass (p q : BankDoc → Bool) (l : List BankDoc) :
    ((l.filter p).filter q = (l.filter q).filter p)
    ∧ (l.filter fun d => p d && q d) = (l.filter p).filter q := by
  refine ⟨List.filter_comm q p l, ?_⟩
  rw [List.filter_filter]
  simp [Bool.and_comm]

/-! ## Theorems for the claims -/

/-- C1 counterexample: for topic `"info"` with allowed ids `doc_001` and
`doc_002`, the intersection of topic-matching documents and the allowed
set has two documents, yet the result the tool returns to the composer is
only the first document's content — the second intersected document's
content does not occur in it, so the returned result is a proper subset
of the intersection. -/
theorem check_bank_documentation_not_whole_intersection :
    check_bank_documentation (Except.ok ["doc_001", "doc_002"]) "info" =
      Except.ok "Bank accounts can be checking or savings. Minimum balance requirements apply."
    ∧ (filteredDocs ["doc_001", "doc_002"] "info").length = 2
    ∧ "We offer personal, business, and mortgage loans with competitive rates." ∈
        (filteredDocs ["doc_001", "doc_002"] "info").map BankDoc.content
    ∧ strContains
        "Bank accounts can be checking or savings. Minimum balance requirements apply.".data
        "We offer personal, business, and mortgage loans with competitive rates.".data = false :=
  ⟨rfl, by decide, by decide, by decide⟩

/-- C1 (amended): the filtered list `check_bank_documentation` computes is
exactly the intersection of the topic-matching documents and the decision
point's allowed-id set — never a superset, never a proper subset — and the
tool returns the content of the first document of that list, or the
no-documentation message when the list is empty. -/
theorem check_bank_documentation_intersection (allowed_ids : List String) (topic : String) :
    (∀ d, d ∈ filteredDocs allowed_ids topic ↔
        d ∈ MOCK_BANK_DOCS ∧ allowed_ids.contains d.id = true ∧ topicMatches topic d = true)
    ∧ check_bank_documentation (Except.ok allowed_ids) topic =
        Except.ok (match filteredDocs allowed_ids topic with
          | [] => noDocMsg
          | d :: _ => d.content) := by
  constructor
  · intro d
    simp [filteredDocs, List.mem_filter]
  · have hred : check_bank_documentation (Except.ok allowed_ids) topic =
        (match filteredDocs allowed_ids topic with
          | [] => Except.ok noDocMsg
          | d :: _ => Except.ok d.content) := rfl
    rw [hred]
    cases filteredDocs allowed_ids topic <;> rfl

/-- C1 witness: the account document belongs to the filtered list for
topic `"account"` when its id is allowed. -/
theorem check_bank_documentation_intersection_witness :
    MOCK_BANK_DOCS.get ⟨0, by decide⟩ ∈ filteredDocs ["doc_001"] "account" :=
  ((check_bank_documentation_intersection ["doc_001"] "account").1 _).mpr
    ⟨by decide, by decide, by decide⟩

/-- C3: the caution note is non-empty only when the sensitivity flag is
true and the decision point approved caution annotation; in particular a
false sensitivity flag forces an empty caution note. -/
theorem verify_response_caution_only_if (dc : Bool → Bool) (t : String) :
    ((verify_response dc t).contains_sensitive_data = false →
      (verify_response dc t).caution_note = "")
    ∧ ((verify_response dc t).caution_note ≠ "" →
      (verify_response dc t).contains_sensitive_data = true ∧ dc (re_search_digit t) = true) := by
  refine ⟨fun h => ?_, fun h => ?_⟩
  · have hb : re_search_digit t = false := h
    show (if (dc (re_search_digit t) && re_search_digit t) = true then cautionMsg else "") = ""
    rw [hb]
    simp
  · have hnote : (verify_response dc t).caution_note =
        (if (dc (re_search_digit t) && re_search_digit t) = true then cautionMsg else "") := rfl
    rw [hnote] at h
    by_cases hb : (dc (re_search_digit t) && re_search_digit t) = true
    · rw [Bool.and_eq_true] at hb
      exact ⟨hb.2, hb.1⟩
    · rw [if_neg hb] at h
      exact absurd rfl h

/-- C3 witness at a digit-free text: the sensitivity flag is false and
the caution note is empty even when the decision point would approve. -/
theorem verify_response_caution_only_if_witness :
    (verify_response (fun _ => true) "abc").caution_note = "" :=
  (verify_response_caution_only_if (fun _ => true) "abc").1 rfl

/-- C4: the sensitivity scan classifies a text as sensitive exactly when
the text contains at least one decimal digit character. -/
theorem re_search_digit_iff_digit (s : String) :
    re_search_digit s = true ↔ ∃ c ∈ s.data, c.isDigit = true :=
  searchDigitList_iff s.data

/-- C4 witness: a digit-bearing text is classified as sensitive. -/
theorem re_search_digit_iff_digit_witness : re_search_digit "a1b" = true :=
  (re_search_digit_iff_digit "a1b").mpr ⟨'1', by decide, by decide⟩

/-- C5: when the decision point allows balance access, the tool reports
the recorded balance formatted to two decimal places; for
`test@example.com` the message reports `1250.30` literally, and a subject
with no recorded account gets `0.00` rather than an error. -/
theorem check_account_balance_spec :
    (∀ u, check_account_balance true u =
        "Your current balance is $" ++ formatCents ((MOCK_BANK_ACCOUNTS.lookup u).getD 0))
    ∧ check_account_balance true "test@example.com" = "Your current balance is $1250.30"
    ∧ check_account_balance true "nobody@example.com" = "Your current balance is $0.00" :=
  ⟨fun _ => rfl, by decide, by decide⟩

/-- C6: a failure of the decision point's filter surfaces as a
`SecurityError` — never as any `ok` result, allow or deny — while an empty
intersection on a successful filter yields the non-error no-documentation
string. -/
theorem check_bank_documentation_failure_distinguished (topic e : String) :
    check_bank_documentation (Except.error e) topic =
      Except.error (SecurityError.mk ("Failed to filter documents: " ++ e))
    ∧ (∀ s, check_bank_documentation (Except.error e) topic ≠ Except.ok s)
    ∧ (∀ allowed_ids, filteredDocs allowed_ids topic = [] →
        check_bank_documentation (Except.ok allowed_ids) topic = Except.ok noDocMsg) := by
  refine ⟨rfl, ?_, ?_⟩
  · intro s h
    simp [check_bank_documentation] at h
  · intro allowed_ids h
    have hred : check_bank_documentation (Except.ok allowed_ids) topic =
        (match filteredDocs allowed_ids topic with
          | [] => Except.ok noDocMsg
          | d :: _ => Except.ok d.content) := rfl
    rw [hred, h]

/-- C6 witness: a concrete filter failure becomes a `SecurityError`, and
an empty allowed set yields the no-documentation string. -/
theorem check_bank_documentation_failure_distinguished_witness :
    check_bank_documentation (Except.error "boom") "info" =
      Except.error (SecurityError.mk "Failed to filter documents: boom")
    ∧ check_bank_documentation (Except.ok []) "info" = Except.ok noDocMsg :=
  ⟨(check_bank_documentation_failure_distinguished "info" "boom").1,
    (check_bank_documentation_failure_distinguished "info" "boom").2.2 [] (by decide)⟩

/-- C7 counterexample: the identity check's action string is not
`"receive"` (the source spells it `"recieve"`), and the resource it
describes carries no attributes — `identity_verified` is attached to the
subject, not the resource. -/
theorem verify_user_prompt_call_not_receive :
    (verify_user_prompt_call "test@example.com").action ≠ "receive"
    ∧ (verify_user_prompt_call "test@example.com").resourceAttrs = [] := by
  refine ⟨?_, rfl⟩
  intro h
  simp [verify_user_prompt_call] at h

/-- C7 (amended): for every subject, the identity check calls the
decision point with action `"recieve"` on a resource of type
`support_response` with no resource attributes, the `identity_verified`
attribute attached to the subject; a false decision returns the message
directing the user to verify their identity at example.com/verify. -/
theorem verify_user_prompt_spec (u : String) :
    (verify_user_prompt_call u).action = "recieve"
    ∧ (verify_user_prompt_call u).subjectKey = u
    ∧ (verify_user_prompt_call u).subjectAttrs = [("identity_verified", true)]
    ∧ (verify_user_prompt_call u).resourceType = "support_response"
    ∧ (verify_user_prompt_call u).resourceAttrs = []
    ∧ verify_user_prompt false =
        "IDENTITY_NOT_VERIFIED: Please verify your identity at example.com/verify" :=
  ⟨rfl, rfl, rfl, rfl, rfl, rfl⟩

/-- C8: two runs of the response-verification step on the same text under
an unchanged policy decision produce identical sensitivity flags and
identical caution notes. -/
theorem verify_response_deterministic (d₁ d₂ : Bool → Bool) (t : String)
    (h : ∀ b, d₁ b = d₂ b) :
    (verify_response d₁ t).contains_sensitive_data =
      (verify_response d₂ t).contains_sensitive_data
    ∧ (verify_response d₁ t).caution_note = (verify_response d₂ t).caution_note := by
  refine ⟨rfl, ?_⟩
  show (if (d₁ (re_search_digit t) && re_search_digit t) = true then cautionMsg else "") =
      (if (d₂ (re_search_digit t) && re_search_digit t) = true then cautionMsg else "")
  rw [h]

/-- C8 witness: two extensionally equal decision functions give the same
caution note on a digit-bearing text. -/
theorem verify_response_deterministic_witness :
    (verify_response (fun b => b) "x1").caution_note =
      (verify_response (fun b => !(!b)) "x1").caution_note :=
  (verify_response_deterministic (fun b => b) (fun b => !(!b)) "x1"
    (fun b => by cases b <;> rfl)).2

/-- C9: filtering by id-membership in the allowed set and then by the
topic predicate yields the same list as the opposite order, and the
single-pass conjunction `check_bank_documentation` uses equals both. -/
theorem filter_order_independent (docs : List BankDoc) (allowed_ids : List String)
    (topic : String) :
    ((docs.filter fun d => allowed_ids.contains d.id).filter fun d => topicMatches topic d)
      = ((docs.filter fun d => topicMatches topic d).filter fun d => allowed_ids.contains d.id)
    ∧ filteredDocs allowed_ids topic
      = ((MOCK_BANK_DOCS.filter fun d => allowed_ids.contains d.id).filter fun d =>
          topicMatches topic d) :=
  ⟨(filter_two_pass _ _ docs).1,
    (filter_two_pass (fun d => allowed_ids.contains d.id) (fun d => topicMatches topic d)
      MOCK_BANK_DOCS).2⟩

/-- C10: the response-verification step always returns `approved = true`,
for every decision outcome and every text. -/
theorem verify_response_always_approved (dc : Bool → Bool) (t : String) :
    (verify_response dc t).approved = true :=
  rfl

end BankAgent
